import Mathlib

/-!
Verification of the adaptive bypass resolution engine of the
Nova-adlink-bypasser-bot repository.

Shallow embedding notes:
* Python dictionaries produced by the orchestrator are modelled as Lean
  structures carrying exactly the fields the orchestrator reads or writes.
* Wall-clock fields (`time_taken`, `timestamp`, `created_at`/`last_success`
  timestamps on patterns, `avg_execution_time`) do not influence any control
  flow of the engine except cache expiry; cache expiry time is modelled
  explicitly as a rational number of hours, all other timestamps are omitted.
* Every external effect (Firestore reads/writes, HTTP fetches, AI calls) is
  an oracle value in an `Env` record; a value `Except.error e` models the
  Python call raising an exception with message `e`.  Python `try/except`
  blocks are modelled by matching on both constructors.
* Python truthiness of an `Optional[str]` (`if result:`) is `strTruthy`:
  `None` and the empty string are falsy.
-/

namespace Nova

/-- Python truthiness of an `Optional[str]` value: `None` and `""` are falsy. -/
def strTruthy : Option String → Bool
  | none => false
  | some s => !s.toList.isEmpty

/-- Model of `str.startswith`. -/
def startsWithS (s pre : String) : Bool :=
  pre.toList.isPrefixOf s.toList

/-- Substring test, modelling the Python `needle in hay` operator on `str`. -/
def strContains (hay needle : String) : Bool :=
  decide (needle.toList <:+: hay.toList)

/-- ASCII lowering of one character, modelling `str.lower` on the ASCII
URLs the engine handles. -/
def charLower (c : Char) : Char :=
  if 'A' ≤ c ∧ c ≤ 'Z' then Char.ofNat (c.toNat + 32) else c

/-- Model of `str.lower` (ASCII). -/
def toLowerS (s : String) : String :=
  String.mk (s.toList.map charLower)

/-- Split a character list at the first occurrence of `sep`; `none` when
`sep` does not occur. -/
def splitFirst (sep : List Char) : List Char → Option (List Char × List Char)
  | [] => none
  | c :: rest =>
      if sep.isPrefixOf (c :: rest) then
        some ([], (c :: rest).drop sep.length)
      else
        match splitFirst sep rest with
        | some (pre, post) => some (c :: pre, post)
        | none => none

/-- Model of `urllib.parse.urlparse(u).scheme` for URLs of the shape
`scheme://netloc/rest` (the shapes the engine manipulates). -/
def schemeOf (u : String) : String :=
  match splitFirst "://".toList u.toList with
  | some (pre, _) => String.mk pre
  | none => u

/-- Model of `urllib.parse.urlparse(u).netloc` for URLs of the shape
`scheme://netloc/rest`. -/
def netlocOf (u : String) : String :=
  match splitFirst "://".toList u.toList with
  | some (_, post) => String.mk (post.takeWhile (fun c => c ≠ '/'))
  | none => ""

/-!
## Pattern store (`LearnedPattern`)

Model of the per-domain Firestore document written by
`AIBypassAgent.learn_from_success`, `AIBypassAgent.learn_from_failure`
(src/services/ai_learning/ai_agent.py lines 401-494) and
`IntelligentBypassSystem._update_pattern_success`
(src/services/intelligent_bypasser.py lines 410-421).
Fields are those the engine reads or writes; timestamps and
`avg_execution_time`/`analysis` payloads are omitted (never read back by
the engine's control flow).  A key that a given write leaves absent from
the document is modelled by `none` / `[]` / `false`.
-/

structure LearnedPattern where
  domain : String
  ptype : String                 -- the stored protection_type tag
  method_used : Option String
  success_rate : ℚ
  total_attempts : Nat
  successful_attempts : Nat
  failed_methods : List String
  last_error : Option String
  needs_ai_analysis : Bool
  deriving Repr, DecidableEq

/-- The fresh document written by `AIBypassAgent.learn_from_success`
(ai_agent.py lines 420-436): `pattern_ref.set(...)` with
`success_rate: 100, total_attempts: 1, successful_attempts: 1` and the
latest winning method/classification.  Keys not in the written dict
(`failed_methods`, `last_error`, `needs_ai_analysis`) are absent. -/
def learn_from_success_pattern (domain method ptype : String) : LearnedPattern :=
  { domain := domain
    ptype := ptype
    method_used := some method
    success_rate := 100
    total_attempts := 1
    successful_attempts := 1
    failed_methods := []
    last_error := none
    needs_ai_analysis := false }

/-- `AIBypassAgent.learn_from_success` performs `pattern_ref.set(pattern)`
(ai_agent.py line 436), an unconditional overwrite of the whole document:
the prior stored pattern is never read. -/
def agent_learn_from_success (prior : Option LearnedPattern)
    (domain method ptype : String) : Option LearnedPattern :=
  match prior with
  | _ => some (learn_from_success_pattern domain method ptype)

/-- Model of `firestore.ArrayUnion`: append the elements of `ys` that are
not already present. -/
def arrayUnion (xs ys : List String) : List String :=
  ys.foldl (fun acc y => if y ∈ acc then acc else acc ++ [y]) xs

/-- The update branch of `AIBypassAgent.learn_from_failure`
(ai_agent.py lines 469-478): `total_attempts` is incremented and
`failed_methods` array-unioned; `successful_attempts` and `success_rate`
are left untouched. -/
def learn_from_failure_update (p : LearnedPattern)
    (failed : List String) (err : String) : LearnedPattern :=
  { p with
    total_attempts := p.total_attempts + 1
    failed_methods := arrayUnion p.failed_methods failed
    last_error := some err }

/-- The creation branch of `AIBypassAgent.learn_from_failure`
(ai_agent.py lines 479-491): a failure-only record. -/
def learn_from_failure_create (domain : String)
    (failed : List String) (err : String) : LearnedPattern :=
  { domain := domain
    ptype := "unknown"
    method_used := none
    success_rate := 0
    total_attempts := 1
    successful_attempts := 0
    failed_methods := failed
    last_error := some err
    needs_ai_analysis := true }

/-- `AIBypassAgent.learn_from_failure` (ai_agent.py lines 446-494):
update the document when it exists, otherwise create a failure-only one. -/
def agent_learn_from_failure (prior : Option LearnedPattern)
    (domain : String) (failed : List String) (err : String) : LearnedPattern :=
  match prior with
  | some p => learn_from_failure_update p failed err
  | none => learn_from_failure_create domain failed err

/-- `IntelligentBypassSystem._update_pattern_success`
(intelligent_bypasser.py lines 410-421): two `firestore.Increment(1)`
updates; `success_rate` is not recomputed. -/
def update_pattern_success (p : LearnedPattern) : LearnedPattern :=
  { p with
    successful_attempts := p.successful_attempts + 1
    total_attempts := p.total_attempts + 1 }

/-- The ratio the specification claims `success_rate` always equals. -/
def recomputedRate (p : LearnedPattern) : ℚ :=
  (p.successful_attempts : ℚ) / (p.total_attempts : ℚ) * 100

/-- The two ways a pattern document comes into existence. -/
inductive PatternCreate where
  | fromSuccess (domain method ptype : String)
  | fromFailure (domain : String) (failed : List String) (err : String)

def createPattern : PatternCreate → LearnedPattern
  | .fromSuccess d m t => learn_from_success_pattern d m t
  | .fromFailure d fs e => learn_from_failure_create d fs e

/-- The mutations applied to an existing pattern document. -/
inductive PatternOp where
  | recordFailure (failed : List String) (err : String)
  | learnedMethodSuccess

def applyOp (p : LearnedPattern) : PatternOp → LearnedPattern
  | .recordFailure fs e => learn_from_failure_update p fs e
  | .learnedMethodSuccess => update_pattern_success p

def applyOps (p : LearnedPattern) (ops : List PatternOp) : LearnedPattern :=
  ops.foldl applyOp p

/-!
## Bypass engine (`BypassEngine`, src/services/bypass.py)

The plausibility filter and the per-candidate acceptance decisions of the
extraction methods.  Fetching and HTML parsing are external effects; what is
modelled is the decision each method applies to a candidate value scraped
from the page.
-/

/-- `BypassEngine._is_valid_download_link` (bypass.py lines 371-385). -/
def is_valid_download_link (url : String) : Bool :=
  if url.toList.isEmpty || !startsWithS url "http" then
    false
  else if (["facebook.com", "twitter.com", "google.com", "youtube.com"].any
      fun d => strContains (netlocOf url) d) then
    false
  else
    ["download", "file", "get", ".pdf", ".zip", ".rar", ".mp4", ".mkv"].any
      fun ind => strContains (toLowerS url) ind

/-- Acceptance decision of `method_css_hidden` for the `href` of a candidate
hidden anchor (bypass.py lines 92-94): `if href and self._is_valid_download_link(href)`. -/
def css_hidden_accepts (href : String) : Bool :=
  !href.toList.isEmpty && is_valid_download_link href

/-- Acceptance decision of `method_javascript` for a regex-captured candidate
(bypass.py lines 124-126). -/
def javascript_accepts (m : String) : Bool :=
  is_valid_download_link m

/-- Acceptance decision of the anchor branch of `method_cloudflare`
(bypass.py lines 232-235): an anchor whose `href` matches the regex
`download|get|file` is returned directly, with no plausibility filtering. -/
def cloudflare_anchor_accepts (href : String) : Bool :=
  strContains href "download" || strContains href "get" || strContains href "file"

/-- Acceptance decision of the script-scan branch of `method_cloudflare`
(bypass.py lines 238-243): the captured URL literal must pass the filter. -/
def cloudflare_script_accepts (m : String) : Bool :=
  is_valid_download_link m

/-- Acceptance decision of `method_base64` for a decoded payload
(bypass.py lines 309-314): accepted as soon as it starts with `http`;
`decoded` is the UTF-8 decode of the base64 payload (`none` when decoding
raised, i.e. the `except: continue` branch). -/
def base64_candidate (decoded : Option String) : Option String :=
  match decoded with
  | some d => if startsWithS d "http" then some d else none
  | none => none

/-- Hexadecimal digit value, for percent-decoding. -/
def hexVal (c : Char) : Option Nat :=
  if '0' ≤ c ∧ c ≤ '9' then some (c.toNat - '0'.toNat)
  else if 'a' ≤ c ∧ c ≤ 'f' then some (c.toNat - 'a'.toNat + 10)
  else if 'A' ≤ c ∧ c ≤ 'F' then some (c.toNat - 'A'.toNat + 10)
  else none

/-- Model of `urllib.parse.unquote` on ASCII data: each valid `%XY` escape is
replaced by the character with code `16*X + Y`; invalid escapes are left
unchanged. -/
def unquoteList : List Char → List Char
  | [] => []
  | '%' :: a :: b :: rest =>
      match hexVal a, hexVal b with
      | some x, some y => Char.ofNat (16 * x + y) :: unquoteList rest
      | _, _ => '%' :: unquoteList (a :: b :: rest)
  | c :: rest => c :: unquoteList rest

def unquote (s : String) : String :=
  String.mk (unquoteList s.toList)

/-- Acceptance decision of `method_url_decode` for a regex-captured value
(bypass.py lines 343-346): decode, then accept iff the decoded value starts
with `http` and decoding changed the value. -/
def url_decode_candidate (encoded : String) : Option String :=
  let decoded := unquote encoded
  if startsWithS decoded "http" && decoded.toList != encoded.toList then
    some decoded
  else none

/-!
### Redirect chain (`BypassEngine.method_redirect`, bypass.py lines 251-285)

The HTTP transport is an oracle `fetch : String → Except String HttpResponse`
(the request is issued with `allow_redirects=False`, so the oracle returns the
raw response; `Except.error` models the request raising).
-/

structure HttpResponse where
  status : Nat
  location : Option String       -- `response.headers.get('Location')`
  deriving Repr, DecidableEq

/-- `response.status in [301, 302, 303, 307, 308]`. -/
def isRedirectStatus (st : Nat) : Bool :=
  st = 301 || st = 302 || st = 303 || st = 307 || st = 308

/-- Resolution of a possibly-relative `Location` target against the current
URL (bypass.py lines 272-273). -/
def resolveLocation (current nxt : String) : String :=
  if startsWithS nxt "http" then nxt
  else schemeOf current ++ "://" ++ netlocOf current ++ nxt

/-- Outcome of the `for i in range(max_redirects)` loop body. -/
inductive LoopExit where
  | returned (u : String)        -- a non-redirect response: `return current_url`
  | fell (current : String)      -- `break` on a missing Location, or range exhausted
  deriving Repr, DecidableEq

/-- The redirect-following loop with remaining-iteration fuel
(bypass.py lines 263-276); an `Except.error` is a raising request,
handled by the method's outer `except`. -/
def redirect_loop (fetch : String → Except String HttpResponse) :
    Nat → String → Except String LoopExit
  | 0, current => .ok (.fell current)
  | n + 1, current =>
      match fetch current with
      | .error e => .error e
      | .ok resp =>
          if isRedirectStatus resp.status then
            match resp.location with
            | none => .ok (.fell current)
            | some nxt => redirect_loop fetch n (resolveLocation current nxt)
          else
            .ok (.returned current)

/-- `BypassEngine.method_redirect` (bypass.py lines 251-285), with
`max_redirects = 10` and the post-loop
`return current_url if current_url != url else None`. -/
def method_redirect (fetch : String → Except String HttpResponse)
    (url : String) : Option String :=
  match redirect_loop fetch 10 url with
  | .ok (.returned u) => some u
  | .ok (.fell current) => if current != url then some current else none
  | .error _ => none

/-- One redirect hop as a total function: the URL the loop moves to from `u`
(meaningful under the hypothesis that `fetch u` is a redirect carrying a
`Location`). -/
def redirect_step (fetch : String → Except String HttpResponse)
    (u : String) : String :=
  match fetch u with
  | .ok resp =>
      match resp.location with
      | some nxt => resolveLocation u nxt
      | none => u
  | .error _ => u

/-!
## Cache layer (`FirebaseDB.get_cached_bypass`, src/database/firebase.py lines 229-257)

The Firestore document for one URL fingerprint is modelled as an
`Option CacheEntry`; time is a rational number of hours (the unit of
`Config.CACHE_EXPIRY_HOURS`).  `created_at = none` models a document
missing the `created_at` key (`if created_at:` is then falsy).
-/

structure CacheEntry where
  original_url : String
  bypassed_url : String
  created_at : Option ℚ          -- hours; `none` = key absent
  hit_count : Nat
  deriving Repr, DecidableEq

/-- `FirebaseDB.get_cached_bypass` acting on the document for the looked-up
fingerprint: returns the cached URL (and the updated document state).
A fresh entry gets its `hit_count` incremented; an expired entry is deleted
(`cache_ref.delete()`); an entry without `created_at` is left in place and
reported as a miss. -/
def get_cached_bypass (now ttlHours : ℚ) (entry : Option CacheEntry) :
    Option String × Option CacheEntry :=
  match entry with
  | none => (none, none)
  | some e =>
      match e.created_at with
      | none => (none, some e)
      | some c =>
          if now < c + ttlHours then
            (some e.bypassed_url, some { e with hit_count := e.hit_count + 1 })
          else
            (none, none)

/-- `FirebaseDB.cache_bypass` (firebase.py lines 259-278): the document is
overwritten with `hit_count = 1` and a fresh `created_at`. -/
def cache_bypass (now : ℚ) (original bypassed : String) : CacheEntry :=
  { original_url := original
    bypassed_url := bypassed
    created_at := some now
    hit_count := 1 }

/-!
## Resolution orchestrator (`IntelligentBypassSystem`, src/services/intelligent_bypasser.py)
-/

/-- The keys of the analysis dict that the orchestrator reads
(`'error' in analysis`, `analysis['error']`, `analysis.get('protection_type')`).
`AIBypassAgent.analyze_page_structure` catches all its own exceptions
(ai_agent.py lines 111-113), so the call never raises. -/
structure AIAnalysis where
  err : Option String            -- `some` iff the key `'error'` is present
  ptype : String
  deriving Repr, DecidableEq

/-- The external-effect oracle for one `bypass(url)` call.  `Except.error e`
models the underlying Python call raising an exception with message `e`. -/
structure Env where
  cache_get : Except String (Option String)
    -- `db.get_cached_bypass(url)` as observed by `_check_cache`
  pattern_get : Except String (Option LearnedPattern)
    -- the Firestore read inside `AIBypassAgent.get_learned_pattern`
  engine_has : String → Bool
    -- `getattr(self.bypass_engine, name, None)` is not None
  learned_run : Except String (Option String)
    -- awaiting the learned method on the url
  traditional : String → Except String (Option String)
    -- outcome of each traditional method, by method name
  fetch_prim : Except String String
    -- the aiohttp fetch inside `_fetch_page_content`
  analyze : AIAnalysis
    -- `ai_agent.analyze_page_structure` (never raises, see above)
  codegen : Option String
    -- `ai_agent.generate_bypass_code` (catches internally, never raises)

/-- The result dict built by `IntelligentBypassSystem._format_result`
(intelligent_bypasser.py lines 423-449).  `time_taken`/`timestamp` are
wall-clock metadata and omitted.  `failed_methods` and `analysis` model the
`**kwargs` entries (absent = `[]` / `none`). -/
structure BypassResult where
  success : Bool
  url : Option String
  method : String
  error : Option String
  from_cache : Bool
  failed_methods : List String
  analysis : Option AIAnalysis
  deriving Repr, DecidableEq

/-- `_format_result`: the `error` key is only included when the passed value
is truthy (`if error:`), so an empty message is dropped. -/
def format_result (success : Bool) (url : Option String) (method : String)
    (error : Option String) (from_cache : Bool)
    (failed_methods : List String) (analysis : Option AIAnalysis) :
    BypassResult :=
  { success := success
    url := url
    method := method
    error := match error with
             | some e => if e.toList.isEmpty then none else some e
             | none => none
    from_cache := from_cache
    failed_methods := failed_methods
    analysis := analysis }

/-- The process-wide counters of `IntelligentBypassSystem.__init__`. -/
structure Stats where
  total_attempts : Nat
  successful_bypasses : Nat
  ai_assisted_bypasses : Nat
  cache_hits : Nat
  deriving Repr, DecidableEq

/-- `IntelligentBypassSystem._check_cache` (lines 139-145): a raising
database call is caught and reported as a miss. -/
def check_cache (env : Env) : Option String :=
  match env.cache_get with
  | .ok v => v
  | .error _ => none

/-- `AIBypassAgent.get_learned_pattern` (ai_agent.py lines 496-529) as
observed by the orchestrator: the Firestore read with its surrounding
`except` returning `None`.  The in-process memory cache is a read-through
copy of the same document and is not modelled separately. -/
def agent_get_learned_pattern (env : Env) : Option LearnedPattern :=
  match env.pattern_get with
  | .ok v => v
  | .error _ => none

/-- `IntelligentBypassSystem._try_learned_method` (lines 154-202).
`pattern.get('method_used')` may be `None`, in which case
`getattr(engine, None, None)` raises a `TypeError` that the handler catches.
The `_update_pattern_success` Firestore write on the success path is an
external effect modelled separately by `update_pattern_success`. -/
def try_learned_method (env : Env) (p : LearnedPattern) : BypassResult :=
  match p.method_used with
  | none =>
      format_result false none "learned_method_error"
        (some "attribute name must be string") false [] none
  | some mname =>
      if env.engine_has mname then
        match env.learned_run with
        | .ok r =>
            if strTruthy r then
              format_result true r ("learned_" ++ mname) none false [] none
            else
              format_result false none "learned_method_failed" none false [] none
        | .error e =>
            format_result false none "learned_method_error" (some e) false [] none
      else
        format_result false none "learned_method_not_found" none false [] none

/-- The fixed priority order of `_try_traditional_methods`
(intelligent_bypasser.py lines 218-229). -/
def methodNames : List String :=
  ["html_form", "css_hidden", "javascript", "countdown_timer",
   "dynamic_content", "cloudflare", "redirect_chain", "base64_decode",
   "url_decode", "browser_automation"]

/-- The `for method_name, method_func in methods:` loop of
`_try_traditional_methods` (lines 231-258): first truthy result wins; a
falsy result or a raising method appends the name to `failed_methods` and
iteration continues. -/
def traditional_loop (env : Env) :
    List String → List String → BypassResult
  | [], failed =>
      format_result false none "all_traditional_failed" none false failed none
  | m :: rest, failed =>
      match env.traditional m with
      | .ok r =>
          if strTruthy r then
            format_result true r m none false [] none
          else
            traditional_loop env rest (failed ++ [m])
      | .error _ => traditional_loop env rest (failed ++ [m])

/-- `IntelligentBypassSystem._try_traditional_methods` (lines 204-258). -/
def try_traditional_methods (env : Env) : BypassResult :=
  traditional_loop env methodNames []

/-- The observable effect of one traditional method invocation inside the
loop: a truthy result `some u` wins; a falsy result (`None`/`""`) and a
raising method are treated identically (the name is appended to
`failed_methods` and iteration continues). -/
def normalizeOutcome : Except String (Option String) → Option String
  | .ok r => if strTruthy r then r else none
  | .error _ => none

/-- `IntelligentBypassSystem._fetch_page_content` (lines 342-351): a raising
fetch is caught and reported as `None`. -/
def fetch_page_content (env : Env) : Option String :=
  match env.fetch_prim with
  | .ok s => some s
  | .error _ => none

/-- `IntelligentBypassSystem._execute_ai_code` (lines 353-371): execution is
a stub that always returns `None`. -/
def execute_ai_code : Option String := none

/-- `IntelligentBypassSystem._ai_assisted_bypass` (lines 260-340). -/
def ai_assisted_bypass (env : Env) : BypassResult :=
  let html := fetch_page_content env
  if !strTruthy html then
    format_result false none "ai_fetch_failed"
      (some "Failed to fetch page content") false [] none
  else
    let a := env.analyze
    match a.err with
    | some msg =>
        format_result false none "ai_analysis_failed" (some msg) false [] none
    | none =>
        let code := env.codegen
        if !strTruthy code then
          format_result false none "ai_code_generation_failed"
            (some "AI failed to generate bypass code") false [] none
        else
          if strTruthy execute_ai_code then
            format_result true execute_ai_code "ai_generated" none false [] (some a)
          else
            format_result false none "ai_execution_failed"
              (some "AI-generated code failed to produce result") false [] (some a)

/-- Steps 3-5 of `IntelligentBypassSystem.bypass` (lines 77-127): the
traditional sequence, then the AI-assisted path, then the total-failure
result.  The cache write-through and the pattern-store learning calls on
these paths are external writes (each wrapped in its own `except`) with no
effect on the returned result or the process counters. -/
def bypass_steps3to5 (env : Env) (s : Stats) : BypassResult × Stats :=
  let tr := try_traditional_methods env
  if tr.success then
    (tr, { s with successful_bypasses := s.successful_bypasses + 1 })
  else
    let ai := ai_assisted_bypass env
    if ai.success then
      (ai, { s with
              successful_bypasses := s.successful_bypasses + 1
              ai_assisted_bypasses := s.ai_assisted_bypasses + 1 })
    else
      (format_result false none "none"
        (some "All bypass methods failed") false [] none, s)

/-- `IntelligentBypassSystem.bypass` (lines 36-137).  Every helper it calls
catches its own exceptions (see the helper models above), so the body of the
orchestrator-level `try` never raises; the `except` of lines 129-137 is
therefore unreachable and the function always returns a result record. -/
def bypass (env : Env) (s0 : Stats) : BypassResult × Stats :=
  let s1 : Stats := { s0 with total_attempts := s0.total_attempts + 1 }
  let cached := check_cache env
  if strTruthy cached then
    (format_result true cached "cache" none true [] none,
     { s1 with cache_hits := s1.cache_hits + 1 })
  else
    match agent_get_learned_pattern env with
    | some p =>
        if (50 : ℚ) < p.success_rate then
          let r := try_learned_method env p
          if r.success then
            (r, { s1 with
                   successful_bypasses := s1.successful_bypasses + 1
                   ai_assisted_bypasses := s1.ai_assisted_bypasses + 1 })
          else
            bypass_steps3to5 env s1
        else
          bypass_steps3to5 env s1
    | none => bypass_steps3to5 env s1

/-- The dict returned by `IntelligentBypassSystem.get_statistics`
(lines 451-471); the nested `ai_stats` belongs to the AI adapter and the
2-decimal display rounding of the rates is presentation, both omitted. -/
structure Statistics where
  total_attempts : Nat
  successful_bypasses : Nat
  success_rate : ℚ
  cache_hits : Nat
  ai_assisted_bypasses : Nat
  ai_usage_rate : ℚ
  deriving Repr, DecidableEq

def get_statistics (s : Stats) : Statistics :=
  { total_attempts := s.total_attempts
    successful_bypasses := s.successful_bypasses
    success_rate :=
      if 0 < s.total_attempts then
        (s.successful_bypasses : ℚ) / (s.total_attempts : ℚ) * 100
      else 0
    cache_hits := s.cache_hits
    ai_assisted_bypasses := s.ai_assisted_bypasses
    ai_usage_rate :=
      if 0 < s.total_attempts then
        (s.ai_assisted_bypasses : ℚ) / (s.total_attempts : ℚ) * 100
      else 0 }

/-!
## Concrete inputs used by witnesses and counterexamples
-/

/-- A stored pattern that existed before a `learn_from_success` call, for the
C4 counterexample: 2 successes out of 5 attempts. -/
def c4_prior : LearnedPattern :=
  { domain := "example.com"
    ptype := "traditional"
    method_used := some "javascript"
    success_rate := 40
    total_attempts := 5
    successful_attempts := 2
    failed_methods := []
    last_error := none
    needs_ai_analysis := false }

/-- An oracle with a fresh cache hit and nothing else succeeding. -/
def envCacheHit : Env :=
  { cache_get := .ok (some "http://cdn.example.com/file.zip")
    pattern_get := .ok none
    engine_has := fun _ => false
    learned_run := .ok none
    traditional := fun _ => .ok none
    fetch_prim := .error "timeout"
    analyze := { err := none, ptype := "unknown" }
    codegen := none }

/-- A stored pattern with a success rate below the confidence threshold. -/
def lowRatePattern : LearnedPattern :=
  { domain := "example.com"
    ptype := "traditional"
    method_used := some "redirect_chain"
    success_rate := 40
    total_attempts := 5
    successful_attempts := 2
    failed_methods := []
    last_error := none
    needs_ai_analysis := false }

/-- A stored pattern with a success rate above the confidence threshold. -/
def highRatePattern : LearnedPattern :=
  { lowRatePattern with success_rate := 80, successful_attempts := 4 }

/-- Cache miss, low-confidence pattern, learned method would succeed. -/
def envLowRate : Env :=
  { envCacheHit with
    cache_get := .ok none
    pattern_get := .ok (some lowRatePattern)
    engine_has := fun _ => true
    learned_run := .ok (some "http://cdn.example.com/file.zip") }

/-- As `envLowRate` but with a completely different learned-method oracle. -/
def envLowRateAlt : Env :=
  { envLowRate with
    engine_has := fun _ => false
    learned_run := .error "boom" }

/-- Cache miss, high-confidence pattern, learned method succeeds. -/
def envHighRate : Env :=
  { envLowRate with pattern_get := .ok (some highRatePattern) }

/-- Cache miss, no pattern; the first five traditional methods fail (one of
them by raising) and the sixth, `cloudflare`, succeeds. -/
def envTraditional : Env :=
  { envCacheHit with
    cache_get := .ok none
    traditional := fun m =>
      if m = "cloudflare" then .ok (some "http://cdn.example.com/file.zip")
      else if m = "css_hidden" then .error "boom"
      else .ok none }

/-- As `envTraditional`, but every failing method reports the falsy result
`some ""` instead of `None`/raising: the normalized outcomes coincide. -/
def envTraditionalAlt : Env :=
  { envTraditional with
    traditional := fun m =>
      if m = "cloudflare" then .ok (some "http://cdn.example.com/file.zip")
      else .ok (some "") }

/-- A transport in which every response is a `302` redirect to a strictly
longer URL: the redirect chain never terminates. -/
def c6_fetch : String → Except String HttpResponse :=
  fun u => .ok { status := 302, location := some (u ++ "x") }

/-- A transport with a 2-hop redirect chain (one relative `Location`)
ending in a `200` response. -/
def c6w_fetch : String → Except String HttpResponse :=
  fun u =>
    if u = "http://s.test/a" then .ok { status := 302, location := some "/b" }
    else if u = "http://s.test/b" then
      .ok { status := 301, location := some "http://cdn.test/file.zip" }
    else .ok { status := 200, location := none }

/-- A cache entry created at hour 0 with 3 prior hits. -/
def e7 : CacheEntry :=
  { original_url := "http://short.test/abc"
    bypassed_url := "http://cdn.test/file.zip"
    created_at := some 0
    hit_count := 3 }

/-- An oracle whose cache lookup observes exactly what
`get_cached_bypass` reports for `e7` at hour 25 with a 24-hour TTL
(the expired-entry miss). -/
def env7 : Env :=
  { envCacheHit with cache_get := .ok (get_cached_bypass 25 24 (some e7)).1 }

/-- The precondition under which the redirect loop takes a hop from `u`:
the response is a redirect status carrying a `Location` header. -/
def RedirectsWithLocation (fetch : String → Except String HttpResponse)
    (u : String) : Prop :=
  ∃ resp, fetch u = .ok resp ∧ isRedirectStatus resp.status = true
    ∧ resp.location.isSome

/-!
# Theorems
-/

/-! ## Pattern-store lemmas -/

lemma applyOp_success_rate (p : LearnedPattern) (op : PatternOp) :
    (applyOp p op).success_rate = p.success_rate := by
  cases op <;> rfl

lemma applyOps_success_rate (p : LearnedPattern) (ops : List PatternOp) :
    (applyOps p ops).success_rate = p.success_rate := by
  induction ops generalizing p with
  | nil => rfl
  | cons op rest ih =>
      simpa [applyOps, List.foldl_cons, applyOp_success_rate] using
        (ih (applyOp p op)).trans (applyOp_success_rate p op)

/-- C4 counterexample: with a stored pattern of 5 total / 2 successful
attempts, `AIBypassAgent.learn_from_success` leaves the domain with counters
1/1 rather than 6/3 — prior history is discarded, not incremented, because
`pattern_ref.set` overwrites the whole document. -/
theorem C4_counterexample :
    agent_learn_from_success (some c4_prior) "example.com" "css_hidden" "traditional"
      = some (learn_from_success_pattern "example.com" "css_hidden" "traditional")
    ∧ (learn_from_success_pattern "example.com" "css_hidden" "traditional").total_attempts
        ≠ c4_prior.total_attempts + 1
    ∧ (learn_from_success_pattern "example.com" "css_hidden" "traditional").successful_attempts
        ≠ c4_prior.successful_attempts + 1 :=
  ⟨rfl, by decide, by decide⟩

/-- C4 (amended): `learn_from_success` replaces the domain record with a
fresh pattern whose counters are exactly `successful_attempts = 1` and
`total_attempts = 1`, regardless of any prior stored pattern, and stores the
most recent winning method and classification; the counters equal
one-more-than-before precisely when the prior pattern had `total_attempts = 0`
(respectively `successful_attempts = 0`). -/
theorem C4_learn_from_success_overwrites (prior : Option LearnedPattern)
    (domain method ptype : String) :
    agent_learn_from_success prior domain method ptype
      = some (learn_from_success_pattern domain method ptype)
    ∧ (learn_from_success_pattern domain method ptype).successful_attempts = 1
    ∧ (learn_from_success_pattern domain method ptype).total_attempts = 1
    ∧ (learn_from_success_pattern domain method ptype).method_used = some method
    ∧ (learn_from_success_pattern domain method ptype).ptype = ptype
    ∧ (∀ q, prior = some q →
        ((learn_from_success_pattern domain method ptype).total_attempts
            = q.total_attempts + 1 ↔ q.total_attempts = 0)) := by
  refine ⟨rfl, rfl, rfl, rfl, rfl, ?_⟩
  intro q _
  simp [learn_from_success_pattern]

/-- Witness for `C4_learn_from_success_overwrites` at a concrete prior. -/
theorem C4_learn_from_success_overwrites_witness :
    (learn_from_success_pattern "example.com" "css_hidden" "traditional").total_attempts
        = c4_prior.total_attempts + 1 ↔ c4_prior.total_attempts = 0 :=
  (C4_learn_from_success_overwrites (some c4_prior)
    "example.com" "css_hidden" "traditional").2.2.2.2.2 c4_prior rfl

/-- C5 counterexample: create a pattern by a success (counters 1/1,
stored rate 100), then record a failure through the update branch of
`learn_from_failure`.  The counters become 1/2 but the stored
`success_rate` stays 100, while the recomputed ratio is 50. -/
theorem C5_counterexample :
    (learn_from_failure_update
        (learn_from_success_pattern "example.com" "css_hidden" "traditional")
        ["html_form"] "All bypass methods failed").success_rate
      ≠ recomputedRate
        (learn_from_failure_update
          (learn_from_success_pattern "example.com" "css_hidden" "traditional")
          ["html_form"] "All bypass methods failed") := by
  simp [learn_from_failure_update, learn_from_success_pattern, recomputedRate]

/-- C5 (amended): the stored `success_rate` equals the recomputed ratio
`successful_attempts / total_attempts * 100` at the moment a pattern is
created (both by `learn_from_success` and by the failure-creation branch),
but the two mutation paths (`learn_from_failure` on an existing document,
and `_update_pattern_success` after a learned-method success) increment the
counters without recomputing `success_rate`, which keeps its creation value;
consequently the stored rate can diverge from the recomputed ratio, though
it always stays within [0, 100]. -/
theorem C5_success_rate_stale_but_bounded (c : PatternCreate) (ops : List PatternOp) :
    (createPattern c).success_rate = recomputedRate (createPattern c)
    ∧ (applyOps (createPattern c) ops).success_rate = (createPattern c).success_rate
    ∧ 0 ≤ (applyOps (createPattern c) ops).success_rate
    ∧ (applyOps (createPattern c) ops).success_rate ≤ 100 := by
  refine ⟨?_, applyOps_success_rate _ _, ?_, ?_⟩
  · cases c <;>
      simp [createPattern, learn_from_success_pattern, learn_from_failure_create,
        recomputedRate]
  · rw [applyOps_success_rate]
    cases c <;>
      simp [createPattern, learn_from_success_pattern, learn_from_failure_create]
  · rw [applyOps_success_rate]
    cases c <;>
      simp [createPattern, learn_from_success_pattern, learn_from_failure_create]

/-- C10: `get_statistics` is total.  With `total_attempts = 0` both rates are
0 and no division is performed; the ratio is computed only under the guard
`total_attempts > 0`. -/
theorem C10_get_statistics_total (s : Stats) :
    (s.total_attempts = 0 →
      (get_statistics s).success_rate = 0 ∧ (get_statistics s).ai_usage_rate = 0)
    ∧ (0 < s.total_attempts →
      (get_statistics s).success_rate
          = (s.successful_bypasses : ℚ) / (s.total_attempts : ℚ) * 100
        ∧ (get_statistics s).ai_usage_rate
          = (s.ai_assisted_bypasses : ℚ) / (s.total_attempts : ℚ) * 100) := by
  constructor <;> intro h <;> simp [get_statistics, h]

/-- Witness for `C10_get_statistics_total` on the freshly-initialized
counters (all zero). -/
theorem C10_get_statistics_total_witness :
    (get_statistics ⟨0, 0, 0, 0⟩).success_rate = 0
    ∧ (get_statistics ⟨0, 0, 0, 0⟩).ai_usage_rate = 0 :=
  (C10_get_statistics_total ⟨0, 0, 0, 0⟩).1 rfl

/-! ## Orchestrator lemmas -/

lemma traditional_loop_congr (e1 e2 : Env)
    (ht : e1.traditional = e2.traditional) :
    ∀ pending failed,
      traditional_loop e1 pending failed = traditional_loop e2 pending failed := by
  intro pending
  induction pending with
  | nil => intro failed; rfl
  | cons m rest ih =>
      intro failed
      simp only [traditional_loop, ht, ih]

lemma ai_assisted_bypass_congr (e1 e2 : Env)
    (hf : e1.fetch_prim = e2.fetch_prim) (ha : e1.analyze = e2.analyze)
    (hg : e1.codegen = e2.codegen) :
    ai_assisted_bypass e1 = ai_assisted_bypass e2 := by
  simp only [ai_assisted_bypass, fetch_page_content, hf, ha, hg]

lemma bypass_steps3to5_congr (e1 e2 : Env) (s : Stats)
    (ht : e1.traditional = e2.traditional) (hf : e1.fetch_prim = e2.fetch_prim)
    (ha : e1.analyze = e2.analyze) (hg : e1.codegen = e2.codegen) :
    bypass_steps3to5 e1 s = bypass_steps3to5 e2 s := by
  simp only [bypass_steps3to5, try_traditional_methods,
    traditional_loop_congr e1 e2 ht, ai_assisted_bypass_congr e1 e2 hf ha hg]

/-- C9: a resolution served from cache increments only the process-wide
`total_attempts` and `cache_hits` counters; `successful_bypasses` (and
`ai_assisted_bypasses`) are untouched, so the success rate reported by
`get_statistics` counts only successes that were not served from cache. -/
theorem C9_cache_hit_counters (env : Env) (s : Stats)
    (h : strTruthy (check_cache env) = true) :
    bypass env s
      = (format_result true (check_cache env) "cache" none true [] none,
         { s with
            total_attempts := s.total_attempts + 1
            cache_hits := s.cache_hits + 1 })
    ∧ (bypass env s).2.successful_bypasses = s.successful_bypasses
    ∧ (bypass env s).2.ai_assisted_bypasses = s.ai_assisted_bypasses
    ∧ (get_statistics (bypass env s).2).successful_bypasses
        = s.successful_bypasses := by
  have h1 : bypass env s
      = (format_result true (check_cache env) "cache" none true [] none,
         { s with
            total_attempts := s.total_attempts + 1
            cache_hits := s.cache_hits + 1 }) := by
    simp [bypass, h]
  exact ⟨h1, by rw [h1], by rw [h1], by rw [h1]; rfl⟩

/-- Witness for `C9_cache_hit_counters`: a concrete cache hit starting from
counters (7, 3, 1, 2). -/
theorem C9_cache_hit_counters_witness :
    bypass envCacheHit ⟨7, 3, 1, 2⟩
      = (format_result true (some "http://cdn.example.com/file.zip") "cache"
          none true [] none,
         ⟨8, 3, 1, 3⟩) :=
  (C9_cache_hit_counters envCacheHit ⟨7, 3, 1, 2⟩ (by decide)).1

/-- C2: the learned-method short-circuit runs if and only if the stored
pattern's success rate strictly exceeds 50.  Part 1: with a pattern at
rate ≤ 50 the learned-method oracle (`engine_has`/`learned_run`) is never
consulted — two oracles differing only there produce identical outcomes —
i.e. the full method sequence runs.  Part 2: with a pattern at rate > 50 the
previously-successful method is attempted first, and on success the
resolution returns it without consulting any traditional method (the
`traditional` oracle is universally quantified and unconstrained). -/
theorem C2_learned_threshold :
    (∀ e1 e2 : Env, ∀ s : Stats, ∀ p : LearnedPattern,
        e1.cache_get = e2.cache_get → e1.pattern_get = e2.pattern_get →
        e1.traditional = e2.traditional → e1.fetch_prim = e2.fetch_prim →
        e1.analyze = e2.analyze → e1.codegen = e2.codegen →
        strTruthy (check_cache e1) = false →
        agent_get_learned_pattern e1 = some p →
        p.success_rate ≤ 50 →
        bypass e1 s = bypass e2 s)
    ∧ (∀ env : Env, ∀ s : Stats, ∀ p : LearnedPattern, ∀ m u : String,
        strTruthy (check_cache env) = false →
        agent_get_learned_pattern env = some p →
        50 < p.success_rate →
        p.method_used = some m →
        env.engine_has m = true →
        env.learned_run = .ok (some u) →
        u.toList ≠ [] →
        bypass env s
          = (format_result true (some u) ("learned_" ++ m) none false [] none,
             { s with
                total_attempts := s.total_attempts + 1
                successful_bypasses := s.successful_bypasses + 1
                ai_assisted_bypasses := s.ai_assisted_bypasses + 1 })) := by
  constructor
  · intro e1 e2 s p hc hp ht hf ha hg hmiss hpat hle
    have hmiss2 : strTruthy (check_cache e2) = false := by
      rwa [check_cache, ← hc, ← check_cache]
    have hpat2 : agent_get_learned_pattern e2 = some p := by
      rwa [agent_get_learned_pattern, ← hp, ← agent_get_learned_pattern]
    have hnot : ¬((50 : ℚ) < p.success_rate) := not_lt.mpr hle
    simp only [bypass, hmiss, hmiss2, hpat, hpat2, if_neg hnot, Bool.false_eq_true,
      if_false]
    exact bypass_steps3to5_congr e1 e2 _ ht hf ha hg
  · intro env s p m u hmiss hpat hgt hm hhas hrun hu
    have htru : strTruthy (some u) = true := by
      simp [strTruthy, String.toList]
      exact hu
    simp [bypass, hmiss, hpat, hgt, try_learned_method, hm, hhas, hrun, htru,
      format_result]

/-- Witness for `C2_learned_threshold`: with a 40%-rate pattern the learned
oracle is irrelevant (`envLowRate` vs `envLowRateAlt`); with an 80%-rate
pattern the stored method `redirect_chain` wins immediately. -/
theorem C2_learned_threshold_witness :
    bypass envLowRate ⟨0, 0, 0, 0⟩ = bypass envLowRateAlt ⟨0, 0, 0, 0⟩
    ∧ bypass envHighRate ⟨0, 0, 0, 0⟩
      = (format_result true (some "http://cdn.example.com/file.zip")
          "learned_redirect_chain" none false [] none,
         ⟨1, 1, 1, 0⟩) :=
  ⟨C2_learned_threshold.1 envLowRate envLowRateAlt ⟨0, 0, 0, 0⟩ lowRatePattern
      rfl rfl rfl rfl rfl rfl (by decide) rfl (by decide),
   C2_learned_threshold.2 envHighRate ⟨0, 0, 0, 0⟩ highRatePattern
      "redirect_chain" "http://cdn.example.com/file.zip"
      (by decide) rfl (by decide) rfl rfl rfl (by decide)⟩

/-! ## Traditional method sequence (C3) -/

lemma traditional_loop_first_win (env : Env) (u : String) :
    ∀ (pre : List String) (m : String) (post failed : List String),
      (∀ x ∈ pre, normalizeOutcome (env.traditional x) = none) →
      normalizeOutcome (env.traditional m) = some u →
      traditional_loop env (pre ++ m :: post) failed
        = format_result true (some u) m none false [] none := by
  intro pre
  induction pre with
  | nil =>
      intro m post failed _ hm
      cases hres : env.traditional m with
      | error e => rw [hres] at hm; simp [normalizeOutcome] at hm
      | ok r =>
          rw [hres] at hm
          by_cases htr : strTruthy r = true
          · have hr : r = some u := by simpa [normalizeOutcome, htr] using hm
            subst hr
            simp [traditional_loop, hres, htr]
          · simp [normalizeOutcome, htr] at hm
  | cons x rest ih =>
      intro m post failed hpre hm
      have hx := hpre x (List.mem_cons_self x rest)
      have hrest : ∀ y ∈ rest, normalizeOutcome (env.traditional y) = none :=
        fun y hy => hpre y (List.mem_cons_of_mem x hy)
      cases hres : env.traditional x with
      | error e =>
          simpa [traditional_loop, hres] using ih m post (failed ++ [x]) hrest hm
      | ok r =>
          rw [hres] at hx
          by_cases htr : strTruthy r = true
          · simp [normalizeOutcome, htr] at hx
            rw [hx] at htr
            simp [strTruthy] at htr
          · simpa [traditional_loop, hres, htr] using
              ih m post (failed ++ [x]) hrest hm

lemma traditional_loop_all_fail (env : Env) :
    ∀ (pending failed : List String),
      (∀ x ∈ pending, normalizeOutcome (env.traditional x) = none) →
      traditional_loop env pending failed
        = format_result false none "all_traditional_failed" none false
            (failed ++ pending) none := by
  intro pending
  induction pending with
  | nil => intro failed _; simp [traditional_loop]
  | cons x rest ih =>
      intro failed hall
      have hx := hall x (List.mem_cons_self x rest)
      have hrest : ∀ y ∈ rest, normalizeOutcome (env.traditional y) = none :=
        fun y hy => hall y (List.mem_cons_of_mem x hy)
      cases hres : env.traditional x with
      | error e =>
          simpa [traditional_loop, hres] using ih (failed ++ [x]) hrest
      | ok r =>
          rw [hres] at hx
          by_cases htr : strTruthy r = true
          · simp [normalizeOutcome, htr] at hx
            rw [hx] at htr
            simp [strTruthy] at htr
          · simpa [traditional_loop, hres, htr] using ih (failed ++ [x]) hrest

lemma traditional_loop_normalized_congr (e1 e2 : Env)
    (h : ∀ x, normalizeOutcome (e1.traditional x)
        = normalizeOutcome (e2.traditional x)) :
    ∀ pending failed,
      traditional_loop e1 pending failed = traditional_loop e2 pending failed := by
  intro pending
  induction pending with
  | nil => intro failed; rfl
  | cons m rest ih =>
      intro failed
      have hm := h m
      cases h1 : e1.traditional m with
      | error e =>
          rw [h1] at hm
          cases h2 : e2.traditional m with
          | error f => simpa [traditional_loop, h1, h2] using ih (failed ++ [m])
          | ok r2 =>
              rw [h2] at hm
              by_cases htr2 : strTruthy r2 = true
              · simp [normalizeOutcome, htr2] at hm
                rw [← hm] at htr2
                simp [strTruthy] at htr2
              · simpa [traditional_loop, h1, h2, htr2] using ih (failed ++ [m])
      | ok r1 =>
          rw [h1] at hm
          by_cases htr1 : strTruthy r1 = true
          · cases h2 : e2.traditional m with
            | error f =>
                rw [h2] at hm
                simp [normalizeOutcome, htr1] at hm
                rw [hm] at htr1
                simp [strTruthy] at htr1
            | ok r2 =>
                rw [h2] at hm
                by_cases htr2 : strTruthy r2 = true
                · have : r1 = r2 := by
                    simpa [normalizeOutcome, htr1, htr2] using hm
                  simp [traditional_loop, h1, h2, htr1, htr2, this]
                · simp [normalizeOutcome, htr1, htr2] at hm
                  rw [hm] at htr1
                  simp [strTruthy] at htr1
          · cases h2 : e2.traditional m with
            | error f =>
                simpa [traditional_loop, h1, h2, htr1] using ih (failed ++ [m])
            | ok r2 =>
                rw [h2] at hm
                by_cases htr2 : strTruthy r2 = true
                · simp [normalizeOutcome, htr1, htr2] at hm
                  rw [← hm] at htr2
                  simp [strTruthy] at htr2
                · simpa [traditional_loop, h1, h2, htr1, htr2] using
                    ih (failed ++ [m])

/-- C3: when no learned pattern applies, the ten extraction methods run in
the fixed order `html_form, css_hidden, javascript, countdown_timer,
dynamic_content, cloudflare, redirect_chain, base64_decode, url_decode,
browser_automation`; the first method with a truthy result wins and later
methods are never consulted (the oracle is unconstrained past the winner); a
method that returns nothing or raises is appended to `failed_methods` and
iteration continues, an exception being treated identically to no result
(only the normalized outcome matters). -/
theorem C3_traditional_order :
    methodNames
      = ["html_form", "css_hidden", "javascript", "countdown_timer",
         "dynamic_content", "cloudflare", "redirect_chain", "base64_decode",
         "url_decode", "browser_automation"]
    ∧ (∀ env : Env, ∀ pre : List String, ∀ m : String,
        ∀ post : List String, ∀ u : String,
        methodNames = pre ++ m :: post →
        (∀ x ∈ pre, normalizeOutcome (env.traditional x) = none) →
        normalizeOutcome (env.traditional m) = some u →
        try_traditional_methods env
          = format_result true (some u) m none false [] none)
    ∧ (∀ env : Env,
        (∀ x ∈ methodNames, normalizeOutcome (env.traditional x) = none) →
        try_traditional_methods env
          = format_result false none "all_traditional_failed" none false
              methodNames none)
    ∧ (∀ e1 e2 : Env,
        (∀ x, normalizeOutcome (e1.traditional x)
            = normalizeOutcome (e2.traditional x)) →
        try_traditional_methods e1 = try_traditional_methods e2) := by
  refine ⟨rfl, ?_, ?_, ?_⟩
  · intro env pre m post u horder hpre hm
    rw [try_traditional_methods, horder]
    exact traditional_loop_first_win env u pre m post [] hpre hm
  · intro env hall
    rw [try_traditional_methods]
    simpa using traditional_loop_all_fail env methodNames [] hall
  · intro e1 e2 h
    exact traditional_loop_normalized_congr e1 e2 h methodNames []

/-- Witness for `C3_traditional_order`: in `envTraditional` the first five
methods fail (`css_hidden` by raising) and `cloudflare` wins; replacing
every failure by the falsy result `some ""` (`envTraditionalAlt`) leaves the
outcome unchanged. -/
theorem C3_traditional_order_witness :
    try_traditional_methods envTraditional
      = format_result true (some "http://cdn.example.com/file.zip")
          "cloudflare" none false [] none
    ∧ try_traditional_methods envTraditional
      = try_traditional_methods envTraditionalAlt :=
  ⟨C3_traditional_order.2.1 envTraditional
      ["html_form", "css_hidden", "javascript", "countdown_timer",
       "dynamic_content"] "cloudflare"
      ["redirect_chain", "base64_decode", "url_decode", "browser_automation"]
      "http://cdn.example.com/file.zip" rfl (by decide) (by decide),
   C3_traditional_order.2.2.2 envTraditional envTraditionalAlt
      (fun x => by
        by_cases h1 : x = "cloudflare" <;> by_cases h2 : x = "css_hidden" <;>
          simp [envTraditional, envTraditionalAlt, envCacheHit, h1, h2,
            normalizeOutcome, strTruthy])⟩

/-! ## Redirect chain (C6) -/

lemma redirect_loop_all_redirect (fetch : String → Except String HttpResponse)
    (h : ∀ u, RedirectsWithLocation fetch u) :
    ∀ (n : Nat) (u : String),
      redirect_loop fetch n u = .ok (.fell ((redirect_step fetch)^[n] u)) := by
  intro n
  induction n with
  | zero => intro u; simp [redirect_loop]
  | succ n ih =>
      intro u
      obtain ⟨resp, hf, hred, hloc⟩ := h u
      obtain ⟨nxt, hnx⟩ := Option.isSome_iff_exists.mp hloc
      have hstep : redirect_step fetch u = resolveLocation u nxt := by
        simp [redirect_step, hf, hnx]
      simp [redirect_loop, hf, hred, hnx, Function.iterate_succ_apply, hstep,
        ih (resolveLocation u nxt)]

lemma redirect_loop_reaches (fetch : String → Except String HttpResponse) :
    ∀ (k n : Nat) (u : String), k < n →
      (∀ j < k, RedirectsWithLocation fetch ((redirect_step fetch)^[j] u)) →
      (∃ resp, fetch ((redirect_step fetch)^[k] u) = .ok resp
        ∧ isRedirectStatus resp.status = false) →
      redirect_loop fetch n u = .ok (.returned ((redirect_step fetch)^[k] u)) := by
  intro k
  induction k with
  | zero =>
      intro n u hn _ hfinal
      obtain ⟨resp, hf, hnr⟩ := hfinal
      cases n with
      | zero => omega
      | succ n =>
          simp only [Function.iterate_zero_apply] at hf ⊢
          simp [redirect_loop, hf, hnr]
  | succ k ih =>
      intro n u hn hchain hfinal
      obtain ⟨resp, hf, hred, hloc⟩ := by
        simpa using hchain 0 (Nat.succ_pos k)
      obtain ⟨nxt, hnx⟩ := Option.isSome_iff_exists.mp hloc
      cases n with
      | zero => omega
      | succ n =>
          have hstep : redirect_step fetch u = resolveLocation u nxt := by
            simp [redirect_step, hf, hnx]
          have hrec := ih n (redirect_step fetch u) (by omega)
            (fun j hj => by
              have := hchain (j + 1) (by omega)
              rwa [Function.iterate_succ_apply] at this)
            (by
              obtain ⟨r2, hf2, hnr2⟩ := hfinal
              rw [Function.iterate_succ_apply] at hf2
              exact ⟨r2, hf2, hnr2⟩)
          rw [Function.iterate_succ_apply]
          simp only [redirect_loop, hf, hred, if_true, hnx]
          rw [← hstep]
          exact hrec

/-- C6 counterexample: with a transport whose every response is a `302`
redirect (`c6_fetch` sends `u` to `u ++ "x"`), the chain never terminates
within the 10-hop budget, yet `method_redirect` does **not** return `None`:
after exhausting the budget it returns the last URL reached, because of the
post-loop `return current_url if current_url != url else None`. -/
theorem C6_counterexample :
    method_redirect c6_fetch "http://s.test/a" = some "http://s.test/axxxxxxxxxx"
    ∧ method_redirect c6_fetch "http://s.test/a" ≠ none :=
  ⟨by decide, by decide⟩

/-- C6 (amended): the redirect-chain method issues requests with
redirect-following disabled and follows `Location` headers (resolving
relative targets against the current URL) for at most 10 requests; it
returns the current URL as soon as a non-redirect response is reached.  When
all 10 responses are redirects, it does not return `None` unconditionally:
it returns the URL reached after the 10th hop whenever that differs from the
original URL, and `None` only when the chain made no net progress. -/
theorem C6_redirect_bounded (fetch : String → Except String HttpResponse)
    (url : String) :
    (∀ k, k < 10 →
      (∀ j < k, RedirectsWithLocation fetch ((redirect_step fetch)^[j] url)) →
      (∃ resp, fetch ((redirect_step fetch)^[k] url) = .ok resp
        ∧ isRedirectStatus resp.status = false) →
      method_redirect fetch url = some ((redirect_step fetch)^[k] url))
    ∧ ((∀ u, RedirectsWithLocation fetch u) →
      method_redirect fetch url
        = if (redirect_step fetch)^[10] url = url then none
          else some ((redirect_step fetch)^[10] url)) := by
  constructor
  · intro k hk hchain hfinal
    rw [method_redirect, redirect_loop_reaches fetch k 10 url hk hchain hfinal]
  · intro h
    rw [method_redirect, redirect_loop_all_redirect fetch h 10 url]
    by_cases heq : (redirect_step fetch)^[10] url = url <;>
      simp [heq, bne_iff_ne]

/-- Witness for `C6_redirect_bounded`: a concrete 2-hop chain (with one
relative `Location`) ending in a `200`, resolved to the final URL. -/
theorem C6_redirect_bounded_witness :
    method_redirect c6w_fetch "http://s.test/a"
      = some ((redirect_step c6w_fetch)^[2] "http://s.test/a")
    ∧ (redirect_step c6w_fetch)^[2] "http://s.test/a"
      = "http://cdn.test/file.zip" :=
  ⟨(C6_redirect_bounded c6w_fetch "http://s.test/a").1 2 (by omega)
      (by
        intro j hj
        interval_cases j
        · exact ⟨{ status := 302, location := some "/b" }, rfl, by decide, rfl⟩
        · exact ⟨{ status := 301, location := some "http://cdn.test/file.zip" },
            rfl, by decide, rfl⟩)
      ⟨{ status := 200, location := none }, rfl, by decide⟩,
   by decide⟩

/-! ## Plausibility filter (C8) -/

/-- C8 counterexample: `method_base64` accepts any decoded payload starting
with `http` (line 311 of bypass.py) — e.g. the payload
`aHR0cDovL2ZhY2Vib29rLmNvbS94` pattern-matched by the scanner decodes to
`http://facebook.com/x`, which the plausibility filter rejects (denylisted
host).  Likewise `method_url_decode` accepts `http%3A%2F%2Ffacebook.com%2Fx`,
and the anchor branch of `method_cloudflare` accepts the relative href
`/get-file`, which is not even an absolute http(s) URL. -/
theorem C8_counterexample :
    base64_candidate (some "http://facebook.com/x") = some "http://facebook.com/x"
    ∧ is_valid_download_link "http://facebook.com/x" = false
    ∧ url_decode_candidate "http%3A%2F%2Ffacebook.com%2Fx"
        = some "http://facebook.com/x"
    ∧ is_valid_download_link "http://facebook.com/x" = false
    ∧ cloudflare_anchor_accepts "/get-file" = true
    ∧ is_valid_download_link "/get-file" = false := by
  exact ⟨by decide, by decide, by decide, by decide, by decide, by decide⟩

/-- C8 (amended): candidates accepted by strategy 2 (`css_hidden`),
strategy 3 (`javascript`) and the script-scan branch of strategy 6
(`cloudflare`) always pass the plausibility filter
`_is_valid_download_link`; but the anchor branch of strategy 6 accepts any
href matching `download|get|file` without the filter, and strategies 8
(`base64_decode`) and 9 (`url_decode`) accept their decoded candidate as
soon as it starts with `http` (strategy 9 additionally requiring that
decoding changed the value), without applying the filter. -/
theorem C8_filter_partial_coverage :
    (∀ href, css_hidden_accepts href = true → is_valid_download_link href = true)
    ∧ (∀ m, javascript_accepts m = true → is_valid_download_link m = true)
    ∧ (∀ m, cloudflare_script_accepts m = true → is_valid_download_link m = true)
    ∧ (∀ d u, base64_candidate (some d) = some u →
        u = d ∧ startsWithS u "http" = true)
    ∧ (∀ enc u, url_decode_candidate enc = some u →
        u = unquote enc ∧ startsWithS u "http" = true
          ∧ u.toList ≠ enc.toList) := by
  refine ⟨?_, ?_, ?_, ?_, ?_⟩
  · intro href h
    simp only [css_hidden_accepts, Bool.and_eq_true] at h
    exact h.2
  · exact fun m h => h
  · exact fun m h => h
  · intro d u h
    simp only [base64_candidate] at h
    split at h
    · cases h
      exact ⟨rfl, by assumption⟩
    · cases h
  · intro enc u h
    simp only [url_decode_candidate] at h
    split at h
    next hcond =>
      cases h
      simp only [Bool.and_eq_true, bne_iff_ne] at hcond
      exact ⟨rfl, hcond.1, hcond.2⟩
    next => cases h

/-- Witness for `C8_filter_partial_coverage`: a filtered strategy-2
candidate passes the filter; a strategy-8 candidate is constrained only to
begin with `http`. -/
theorem C8_filter_partial_coverage_witness :
    is_valid_download_link "http://cdn.example.com/file.zip" = true
    ∧ ("http://facebook.com/x" : String) = "http://facebook.com/x"
      ∧ startsWithS "http://facebook.com/x" "http" = true :=
  ⟨C8_filter_partial_coverage.1 "http://cdn.example.com/file.zip" (by decide),
   C8_filter_partial_coverage.2.2.2.1 "http://facebook.com/x"
      "http://facebook.com/x" (by decide)⟩

/-! ## Shape of the orchestrator results (for C1 and C7) -/

lemma learned_tag_ne_cache (m : String) : "learned_" ++ m ≠ "cache" := by
  intro h
  have h2 : ("learned_" ++ m).data = ("cache" : String).data :=
    congrArg String.data h
  rw [String.data_append] at h2
  have hl : ("learned_" : String).data = ['l', 'e', 'a', 'r', 'n', 'e', 'd', '_'] := rfl
  have hc : ("cache" : String).data = ['c', 'a', 'c', 'h', 'e'] := rfl
  rw [hl, hc] at h2
  injection h2 with h3 _
  exact absurd h3 (by decide)

lemma try_learned_method_success_shape (env : Env) (p : LearnedPattern)
    (h : (try_learned_method env p).success = true) :
    (try_learned_method env p).error = none
    ∧ (try_learned_method env p).from_cache = false
    ∧ ∃ m, p.method_used = some m
        ∧ (try_learned_method env p).method = "learned_" ++ m := by
  revert h
  unfold try_learned_method
  cases hm : p.method_used with
  | none =>
      intro h
      simp [format_result] at h
  | some m =>
      dsimp only
      by_cases hhas : env.engine_has m = true
      · rw [if_pos hhas]
        cases hrun : env.learned_run with
        | error e =>
            intro h
            simp [format_result] at h
        | ok r =>
            dsimp only
            by_cases htr : strTruthy r = true
            · rw [if_pos htr]
              intro _
              exact ⟨rfl, rfl, m, rfl, rfl⟩
            · rw [if_neg htr]
              intro h
              simp [format_result] at h
      · rw [if_neg hhas]
        intro h
        simp [format_result] at h

lemma traditional_loop_shape (env : Env) :
    ∀ pending failed,
      (traditional_loop env pending failed).from_cache = false
      ∧ ((traditional_loop env pending failed).success = true →
          (traditional_loop env pending failed).error = none
          ∧ (traditional_loop env pending failed).method ∈ pending)
      ∧ ((traditional_loop env pending failed).success = false →
          (traditional_loop env pending failed).method
            = "all_traditional_failed") := by
  intro pending
  induction pending with
  | nil => intro failed; simp [traditional_loop, format_result]
  | cons m rest ih =>
      intro failed
      cases hres : env.traditional m with
      | error e =>
          have h0 := ih (failed ++ [m])
          simp only [traditional_loop, hres]
          exact ⟨h0.1,
            fun hs => ⟨(h0.2.1 hs).1, List.mem_cons_of_mem m (h0.2.1 hs).2⟩,
            h0.2.2⟩
      | ok r =>
          simp only [traditional_loop, hres]
          by_cases htr : strTruthy r = true
          · rw [if_pos htr]
            refine ⟨rfl, fun _ => ⟨rfl, List.mem_cons_self m rest⟩, fun hs => ?_⟩
            simp [format_result] at hs
          · rw [if_neg htr]
            have h0 := ih (failed ++ [m])
            exact ⟨h0.1,
              fun hs => ⟨(h0.2.1 hs).1, List.mem_cons_of_mem m (h0.2.1 hs).2⟩,
              h0.2.2⟩

lemma ai_assisted_bypass_shape (env : Env) :
    (ai_assisted_bypass env).from_cache = false
    ∧ ((ai_assisted_bypass env).success = true →
        (ai_assisted_bypass env).error = none)
    ∧ (ai_assisted_bypass env).method ≠ "cache" := by
  unfold ai_assisted_bypass
  by_cases hh : strTruthy (fetch_page_content env) = true
  · rw [if_neg (by simp [hh])]
    cases ha : env.analyze.err with
    | some msg => simp [ha, format_result]
    | none =>
        cases hg : env.codegen with
        | none => simp [ha, hg, strTruthy, execute_ai_code, format_result]
        | some code =>
            by_cases hne : code.data = []
            · simp [ha, hg, strTruthy, String.toList, hne, format_result]
            · simp [ha, hg, strTruthy, String.toList, hne, execute_ai_code,
                format_result]
  · rw [if_pos (by simp at hh ⊢; exact hh)]
    simp [format_result]

lemma bypass_steps3to5_shape (env : Env) (s : Stats) :
    ((bypass_steps3to5 env s).1.success = false ↔
      (bypass_steps3to5 env s).1.error ≠ none)
    ∧ (bypass_steps3to5 env s).1.from_cache = false
    ∧ (bypass_steps3to5 env s).1.method ≠ "cache" := by
  have htrad := traditional_loop_shape env methodNames []
  have hai := ai_assisted_bypass_shape env
  have hcm : "cache" ∉ methodNames := by decide
  unfold bypass_steps3to5 try_traditional_methods
  by_cases ht : (traditional_loop env methodNames []).success = true
  · rw [if_pos ht]
    have h2 := htrad.2.1 ht
    exact ⟨by simp [ht, h2.1], htrad.1, fun heq => hcm (heq ▸ h2.2)⟩
  · rw [if_neg ht]
    by_cases hA : (ai_assisted_bypass env).success = true
    · rw [if_pos hA]
      exact ⟨by simp [hA, hai.2.1 hA], hai.1, hai.2.2⟩
    · rw [if_neg hA]
      simp [format_result]

lemma bypass_miss_shape (env : Env) (s : Stats)
    (h : strTruthy (check_cache env) = false) :
    (bypass env s).1.from_cache = false
    ∧ (bypass env s).1.method ≠ "cache" := by
  simp only [bypass, h, Bool.false_eq_true, if_false]
  cases hp : agent_get_learned_pattern env with
  | none => exact (bypass_steps3to5_shape env _).2
  | some p =>
      dsimp only
      by_cases hrate : (50 : ℚ) < p.success_rate
      · rw [if_pos hrate]
        by_cases hs : (try_learned_method env p).success = true
        · rw [if_pos hs]
          obtain ⟨_, hfc, m, _, hmeth⟩ := try_learned_method_success_shape env p hs
          exact ⟨hfc, hmeth ▸ learned_tag_ne_cache m⟩
        · rw [if_neg hs]
          exact (bypass_steps3to5_shape env _).2
      · rw [if_neg hrate]
        exact (bypass_steps3to5_shape env _).2

/-- C7: a cache entry whose `created_at` lies more than
`Config.CACHE_EXPIRY_HOURS` in the past is never returned as a hit — the
lookup reports a miss and deletes the document — and a resolution observing
that miss is not served from cache (the full pipeline runs); within the TTL
the entry is returned and its `hit_count` is incremented. -/
theorem C7_cache_ttl (now ttl c : ℚ) (e : CacheEntry)
    (he : e.created_at = some c) :
    (c + ttl ≤ now →
      get_cached_bypass now ttl (some e) = (none, none))
    ∧ (now < c + ttl →
      get_cached_bypass now ttl (some e)
        = (some e.bypassed_url, some { e with hit_count := e.hit_count + 1 }))
    ∧ (∀ env : Env, ∀ s : Stats,
        c + ttl ≤ now →
        env.cache_get = .ok (get_cached_bypass now ttl (some e)).1 →
        (bypass env s).1.from_cache = false
        ∧ (bypass env s).1.method ≠ "cache") := by
  refine ⟨?_, ?_, ?_⟩
  · intro hexp
    simp [get_cached_bypass, he, not_lt.mpr hexp]
  · intro hfresh
    simp [get_cached_bypass, he, hfresh]
  · intro env s hexp hcg
    have h1 : get_cached_bypass now ttl (some e) = (none, none) := by
      simp [get_cached_bypass, he, not_lt.mpr hexp]
    have hmiss : strTruthy (check_cache env) = false := by
      rw [check_cache, hcg, h1]
      rfl
    exact bypass_miss_shape env s hmiss

/-- Witness for `C7_cache_ttl`: entry `e7` (created at hour 0, TTL 24 h) is
evicted and missed at hour 25 and the pipeline result is not from cache,
while at hour 10 it is served with its hit counter bumped to 4. -/
theorem C7_cache_ttl_witness :
    get_cached_bypass 25 24 (some e7) = (none, none)
    ∧ get_cached_bypass 10 24 (some e7)
      = (some "http://cdn.test/file.zip",
         some { e7 with hit_count := 4 })
    ∧ ((bypass env7 ⟨0, 0, 0, 0⟩).1.from_cache = false
        ∧ (bypass env7 ⟨0, 0, 0, 0⟩).1.method ≠ "cache") :=
  ⟨(C7_cache_ttl 25 24 0 e7 rfl).1 (by simp only [zero_add]; decide),
   (C7_cache_ttl 10 24 0 e7 rfl).2.1 (by simp only [zero_add]; decide),
   (C7_cache_ttl 25 24 0 e7 rfl).2.2 env7 ⟨0, 0, 0, 0⟩
      (by simp only [zero_add]; decide) rfl⟩

/-- C1: the orchestrator always returns a result record — every external
effect is free to raise (`Except.error`) and every such exception is caught
by the handler of the helper that issued it, so `bypass` is a total
function of the oracle — and the returned record fails exactly when it
carries an error: `success = false` iff the `error` field is present (and
the only failure the orchestrator returns carries the aggregate message
`All bypass methods failed`, always paired with `success = false`). -/
theorem C1_resolve_never_throws (env : Env) (s : Stats) :
    ((bypass env s).1.success = false ↔ (bypass env s).1.error ≠ none) := by
  cases hca : strTruthy (check_cache env) with
  | true => simp [bypass, hca, format_result]
  | false =>
      simp only [bypass, hca, Bool.false_eq_true, if_false]
      cases hp : agent_get_learned_pattern env with
      | none => exact (bypass_steps3to5_shape env _).1
      | some p =>
          dsimp only
          by_cases hrate : (50 : ℚ) < p.success_rate
          · rw [if_pos hrate]
            by_cases hs : (try_learned_method env p).success = true
            · rw [if_pos hs]
              obtain ⟨herr, _, _⟩ := try_learned_method_success_shape env p hs
              simp [hs, herr]
            · rw [if_neg hs]
              exact (bypass_steps3to5_shape env _).1
          · rw [if_neg hrate]
            exact (bypass_steps3to5_shape env _).1

end Nova
